import Mathlib

/-!
Verification of the execution orchestrator of a miniature FaaS platform
(`api/run_function_docker.py`).

The Python source is shallowly embedded: every external effect
(docker image inspect/build, container acquire, `docker cp`, `docker exec`,
`docker run`, `docker stats`, `docker kill`, file write/delete, database
insert) is modelled by an `Action` recorded in a trace, and the outcome of
each external call is supplied by a `World` record so that `run_function`
becomes a pure function from `World` to a result, a trace, and the warm
pool left behind.  String manipulation (Python `str.strip`, `str.split`,
`str.replace`, `float(...)`) is modelled over `List Char`, with `float`
restricted to plain decimal literals (the only shape that occurs in docker
stats lines).
-/

namespace FaaS

/-- Python `str.strip()` on a character list: drop whitespace at both ends. -/
def stripL (s : List Char) : List Char :=
  ((s.dropWhile Char.isWhitespace).reverse.dropWhile Char.isWhitespace).reverse

/-- Python `s.split(sep)` for a one-character separator:
`"".split(",") = [""]`, `"a,,b".split(",") = ["a","","b"]`. -/
def splitOnCharL (sep : Char) : List Char → List (List Char)
  | [] => [[]]
  | c :: rest =>
    if c = sep then [] :: splitOnCharL sep rest
    else
      match splitOnCharL sep rest with
      | [] => [[c]]
      | g :: gs => (c :: g) :: gs

/-- If `sep` is a leading segment of `s`, return the remainder of `s`. -/
def stripLead : List Char → List Char → Option (List Char)
  | [], rest => some rest
  | _ :: _, [] => none
  | p :: ps, c :: cs => if c = p then stripLead ps cs else none

/-- Fuel-driven worker for `splitSepL`. -/
def splitSepGo (sep : List Char) : Nat → List Char → List (List Char)
  | 0, s => [s]
  | Nat.succ fuel, s =>
    match s with
    | [] => [[]]
    | c :: cs =>
      match stripLead sep s with
      | some rest => [] :: splitSepGo sep fuel rest
      | none =>
        match splitSepGo sep fuel cs with
        | [] => [[c]]
        | g :: gs => (c :: g) :: gs

/-- Python `s.split(sep)` for a non-empty multi-character separator,
e.g. `"1.2MiB / 256MiB".split("MiB") = ["1.2", " / 256", ""]`. -/
def splitSepL (sep s : List Char) : List (List Char) :=
  splitSepGo sep s.length s

/-- Python `s.replace("%", "")`: remove every `%` character. -/
def removePercent (s : List Char) : List Char :=
  s.filter (fun c => c ≠ '%')

/-- Read a digit list as a natural number, most significant digit first. -/
def natOfDigits (l : List Nat) : Nat :=
  l.foldl (fun a d => 10 * a + d) 0

/-- Map characters to digit values, failing on any non-digit. -/
def digitVals : List Char → Option (List Nat)
  | [] => some []
  | c :: cs =>
    if c.isDigit then (digitVals cs).map (fun ds => (c.toNat - '0'.toNat) :: ds)
    else none

/-- Python `float(s)` on plain decimal literals (optional sign, digits,
optional fractional part): `float("1.2") = 1.2`, `float("5") = 5.0`,
`float("") ` and `float("a")` raise (`none` here).  Exponent, `inf` and
`nan` forms never occur in docker stats output and are not modelled. -/
def pyFloatCore (s : List Char) : Option ℚ :=
  let signed : Bool × List Char :=
    match s with
    | '-' :: r => (true, r)
    | '+' :: r => (false, r)
    | _ => (false, s)
  let neg := signed.1
  let rest := signed.2
  match splitOnCharL '.' rest with
  | [intPart] =>
    if intPart = [] then none
    else
      (digitVals intPart).map fun ds =>
        (if neg then -1 else 1) * (natOfDigits ds : ℚ)
  | [intPart, fracPart] =>
    if intPart = [] ∧ fracPart = [] then none
    else
      match digitVals intPart, digitVals fracPart with
      | some is, some fs =>
        some ((if neg then -1 else 1) *
          ((natOfDigits is : ℚ) + (natOfDigits fs : ℚ) / (10 ^ fs.length)))
      | _, _ => none
  | _ => none

/-- `parse_docker_stats` (run_function_docker.py lines 91–102): split the
stripped stats line on `","` into exactly a memory field and a cpu field,
take the text of the memory field before `"MiB"`, strip `%` from the cpu
field, and convert both with `float`; any failure is caught and yields
`(0.0, 0.0)`.  Total by construction, mirroring the `try/except` that
swallows every parse error. -/
def parse_docker_stats (stats_output : String) : ℚ × ℚ :=
  match splitOnCharL ',' (stripL stats_output.data) with
  | [mem_str, cpu_str] =>
    let memTok := stripL ((splitSepL "MiB".data mem_str).headD [])
    let cpuTok := stripL (removePercent cpu_str)
    match pyFloatCore memTok, pyFloatCore cpuTok with
    | some m, some c => (m, c)
    | _, _ => (0, 0)
  | _ => (0, 0)

/-- One observable external effect of the orchestrator. -/
inductive Action where
  | imageInspect (tag : String)
  | imageBuild (tag : String)
  | writeFile (name : String)
  | dockerCp (cid : String)
  | dockerExec (cid : String)
  | dockerRun
  | dockerStats (cid : String)
  | dockerKill (cid : String)
  | deleteFile (name : String)
  | dbInsert (ok : Bool)
deriving DecidableEq

/-- An exception propagated out of `run_function` (Python `ValueError`,
`FileNotFoundError`, or `CalledProcessError` escaping from
`ensure_docker_images`). -/
inductive RunError where
  | unsupportedLanguage (lang : String)
  | dockerfileNotFound (file : String)
  | buildFailed (tag : String)
deriving DecidableEq

/-- The docker-side state `ensure_docker_images` consults: which image tags
already exist, which Dockerfiles are present on disk, and which builds
would fail (exit non-zero). -/
structure ImageState where
  images : List String
  dockerfiles : List String
  buildFails : List String
deriving DecidableEq

/-- Outcome of `ensure_docker_images`: the effect trace, the image tags
present afterwards, and the exception, if any, that aborted the loop. -/
structure EnsureResult where
  trace : List Action
  images : List String
  err : Option RunError
deriving DecidableEq

/-- The fixed `(language, dockerfile, tag)` list iterated by
`ensure_docker_images` (run_function_docker.py lines 51–54). -/
def langTriples : List (String × String × String) :=
  [("python", "Dockerfile.python", "code-runner-python"),
   ("node", "Dockerfile.node", "code-runner-node")]

/-- One iteration of the `ensure_docker_images` loop: missing Dockerfile
raises; otherwise `docker image inspect` runs, and only when it fails
(image absent) is `docker build` attempted, which raises on failure.
A pending exception short-circuits the remaining iterations. -/
def ensureStep (st : ImageState) (acc : EnsureResult)
    (t : String × String × String) : EnsureResult :=
  match acc.err with
  | some _ => acc
  | none =>
    let dockerfile := t.2.1
    let tag := t.2.2
    if dockerfile ∈ st.dockerfiles then
      if tag ∈ acc.images then
        ⟨acc.trace ++ [Action.imageInspect tag], acc.images, none⟩
      else if tag ∈ st.buildFails then
        ⟨acc.trace ++ [Action.imageInspect tag, Action.imageBuild tag],
          acc.images, some (RunError.buildFailed tag)⟩
      else
        ⟨acc.trace ++ [Action.imageInspect tag, Action.imageBuild tag],
          acc.images ++ [tag], none⟩
    else
      ⟨acc.trace, acc.images, some (RunError.dockerfileNotFound dockerfile)⟩

/-- `ensure_docker_images` (run_function_docker.py lines 49–68). -/
def ensure_docker_images (st : ImageState) : EnsureResult :=
  langTriples.foldl (ensureStep st) ⟨[], st.images, none⟩

/-- The outcomes of the external calls one `run_function` invocation makes,
together with the warm pool `warm_containers[language][runtime]` for the
requested key at the time of the call. -/
structure World where
  imgs : ImageState
  pool : List String
  tempId : String
  cpOk : Bool
  cpErr : String
  execTimesOut : Bool
  execStdout : String
  execStderr : String
  statsRc : Nat
  statsOut : String
  insertOk : Bool
deriving DecidableEq

/-- Acquisition from the warm pool (run_function_docker.py lines 142–143):
`warm_containers[language][runtime].pop()` removes and returns the last
element; an empty list means cold start. -/
def acquire (pool : List String) : Option String × List String :=
  match pool.getLast? with
  | some c => (some c, pool.dropLast)
  | none => (none, pool)

/-- `str.strip()` on a `String`. -/
def pyStripS (s : String) : String := ⟨stripL s.data⟩

/-- The timeout message of run_function_docker.py line 188. -/
def timeoutMsg (timeout : Nat) : String :=
  "Execution timed out after " ++ toString timeout ++ " seconds."

/-- Result of the `try/except` block of `run_function` (lines 141–204):
output, error flag, (stripped) stdout and stderr, the usage sample, the
effects performed inside the block, and the warm pool left behind. -/
structure BodyResult where
  output : String
  eflag : Bool
  sout : String
  serr : String
  mem : ℚ
  cpu : ℚ
  tr : List Action
  pool : List String
deriving DecidableEq

/-- The `try/except` block of `run_function` (lines 141–204).  A pooled
container is popped and never pushed back; `docker cp` failure raises
`CalledProcessError` (caught at line 195); a timeout kills the container
only when `container_id` is set, i.e. only on the pooled path; on normal
completion the usage sample is parsed only when `docker stats` exited 0,
and a cold-started run reports zero usage. -/
def runBody (timeout : Nat) (w : World) : BodyResult :=
  match acquire w.pool with
  | (some cid, rest) =>
    if w.cpOk = false then
      ⟨"Execution failed: " ++ w.cpErr, true, "", w.cpErr, 0, 0,
        [Action.dockerCp cid], rest⟩
    else if w.execTimesOut then
      ⟨timeoutMsg timeout, true, "", timeoutMsg timeout, 0, 0,
        [Action.dockerCp cid, Action.dockerExec cid, Action.dockerKill cid],
        rest⟩
    else
      let uc := if w.statsRc = 0 then parse_docker_stats w.statsOut else (0, 0)
      let sout := pyStripS w.execStdout
      let serr := pyStripS w.execStderr
      ⟨if sout = "" then serr else sout, !(serr == "") && (sout == ""),
        sout, serr, uc.1, uc.2,
        [Action.dockerCp cid, Action.dockerExec cid, Action.dockerStats cid],
        rest⟩
  | (none, _) =>
    if w.execTimesOut then
      ⟨timeoutMsg timeout, true, "", timeoutMsg timeout, 0, 0,
        [Action.dockerRun], w.pool⟩
    else
      let sout := pyStripS w.execStdout
      let serr := pyStripS w.execStderr
      ⟨if sout = "" then serr else sout, !(serr == "") && (sout == ""),
        sout, serr, 0, 0, [Action.dockerRun], w.pool⟩

/-- One row of the metrics record built at lines 211–218 (the wall-clock
`response_time` is real time and is not modelled). -/
structure Metrics where
  error : Bool
  stdout : String
  stderr : String
  memory_usage : ℚ
  cpu_usage : ℚ
deriving DecidableEq

/-- Result of one `run_function` call: the exception if one escaped, the
returned output and metrics otherwise, the full effect trace, and the warm
pool for the requested key afterwards. -/
structure RunResult where
  err : Option RunError
  output : String
  metrics : Option Metrics
  trace : List Action
  pool : List String
deriving DecidableEq

/-- `run_function` (run_function_docker.py lines 104–230): provision
images (before the language check), reject unsupported languages with
`ValueError`, write the transient source file, run the `try/except/finally`
body (the `finally` always deletes the file), assemble metrics, and attempt
the database insert, whose failure is caught (`sqlite3.Error`) and only
logged. -/
def run_function (code language : String) (timeout : Nat) (hasConn : Bool)
    (w : World) : RunResult :=
  let e := ensure_docker_images w.imgs
  match e.err with
  | some er => ⟨some er, "", none, e.trace, w.pool⟩
  | none =>
    if language = "python" ∨ language = "node" then
      let filename :=
        "/tmp/" ++ w.tempId ++ (if language = "python" then ".py" else ".js")
      let b := runBody timeout w
      let m : Metrics := ⟨b.eflag, b.sout, b.serr, b.mem, b.cpu⟩
      let tr := e.trace ++ [Action.writeFile filename] ++ b.tr ++
        [Action.deleteFile filename]
      let tr2 := if hasConn then tr ++ [Action.dbInsert w.insertOk] else tr
      ⟨none, b.output, some m, tr2, b.pool⟩
    else
      ⟨some (RunError.unsupportedLanguage language), "", none, e.trace, w.pool⟩

/-- True exactly for `docker kill` actions. -/
def isKill : Action → Bool
  | Action.dockerKill _ => true
  | _ => false

/-- True exactly for image-provisioning actions (`docker image inspect`,
`docker build`). -/
def isProvision : Action → Bool
  | Action.imageInspect _ => true
  | Action.imageBuild _ => true
  | _ => false

/-- Number of `docker build` invocations for `tag` in a trace. -/
def buildCount (tag : String) (tr : List Action) : Nat :=
  (tr.filter (fun a => a == Action.imageBuild tag)).length

/-- True exactly for `docker build` actions. -/
def isBuild : Action → Bool
  | Action.imageBuild _ => true
  | _ => false

/-- The `"<mem>MiB ...,<cpu>%"` stats-line format named by the claim: two
comma-separated fields, the first containing `MiB` preceded by a float,
the second containing `%` and reading as a float once `%` is removed.
(Stated from the claim's words, to compare the claimed trigger of the
`(0, 0)` default with the code's actual one.) -/
def statsLineFormat (s : String) : Bool :=
  match splitOnCharL ',' (stripL s.data) with
  | [mem_str, cpu_str] =>
    decide (2 ≤ (splitSepL "MiB".data mem_str).length) &&
    (pyFloatCore (stripL ((splitSepL "MiB".data mem_str).headD []))).isSome &&
    cpu_str.contains '%' &&
    (pyFloatCore (stripL (removePercent cpu_str))).isSome
  | _ => false

/-- True when the tolerant component parse of `parse_docker_stats`
succeeds: the stripped input splits on `","` into exactly two fields, the
memory field's text before `"MiB"` converts with `float`, and the cpu
field converts with `float` once `%` is removed. -/
def statsComponentsParse (s : String) : Bool :=
  match splitOnCharL ',' (stripL s.data) with
  | [mem_str, cpu_str] =>
    (pyFloatCore (stripL ((splitSepL "MiB".data mem_str).headD []))).isSome &&
    (pyFloatCore (stripL (removePercent cpu_str))).isSome
  | _ => false

/-- Docker state with both execution images present and both Dockerfiles
on disk. -/
def imgsReady : ImageState :=
  ⟨["code-runner-python", "code-runner-node"],
   ["Dockerfile.python", "Dockerfile.node"], []⟩

/-- A pooled invocation that completes cleanly with stdout `" hi \n"`
(the stats sampling call fails, so no rational arithmetic is involved). -/
def wPoolClean : World :=
  ⟨imgsReady, ["c1"], "t", true, "", false, " hi \n", "", 1, "", true⟩

/-- A cold-started invocation (empty pool) that exceeds its deadline. -/
def wColdTimeout : World :=
  ⟨imgsReady, [], "t", true, "", true, "", "", 1, "", true⟩

/-- A pooled invocation (pool `["c1"]`) that exceeds its deadline. -/
def wPoolTimeout : World :=
  ⟨imgsReady, ["c1"], "t", true, "", true, "", "", 1, "", true⟩

/-- A pooled invocation that completes cleanly but whose `docker stats`
call exits non-zero while its captured stdout is a well-formed stats
line. -/
def wStatsFail : World :=
  ⟨imgsReady, ["c1"], "t", true, "", false, "hi", "", 1,
   "5.0MiB / 256MiB,3.0%", true⟩

/-- Docker state with no images built yet but both Dockerfiles present. -/
def wNoImages : World :=
  ⟨⟨[], ["Dockerfile.python", "Dockerfile.node"], []⟩,
   [], "t", true, "", false, "", "", 1, "", true⟩

/-- Unfolding of `run_function` when image provisioning succeeds and the
language is supported: no exception escapes, the returned output and
metrics are those of the `try` body, the transient file is written before
the body and deleted after it, and the database insert is attempted only
when a connection was passed. -/
theorem run_function_unfold (code language : String) (timeout : Nat)
    (hasConn : Bool) (w : World)
    (hens : (ensure_docker_images w.imgs).err = none)
    (hlang : language = "python" ∨ language = "node") :
    run_function code language timeout hasConn w =
      ⟨none, (runBody timeout w).output,
        some ⟨(runBody timeout w).eflag, (runBody timeout w).sout,
          (runBody timeout w).serr, (runBody timeout w).mem,
          (runBody timeout w).cpu⟩,
        (ensure_docker_images w.imgs).trace ++
          [Action.writeFile ("/tmp/" ++ w.tempId ++
            (if language = "python" then ".py" else ".js"))] ++
          (runBody timeout w).tr ++
          [Action.deleteFile ("/tmp/" ++ w.tempId ++
            (if language = "python" then ".py" else ".js"))] ++
          (if hasConn then [Action.dbInsert w.insertOk] else []),
        (runBody timeout w).pool⟩ := by
  simp only [run_function]
  rw [hens, if_pos hlang]
  cases hasConn <;> simp [List.append_assoc]

/-- `runBody` on the pooled path with a successful copy and no timeout:
stdout/stderr are stripped and combined, the usage sample is parsed only
when `docker stats` exited 0, and the popped container is not returned. -/
theorem runBody_pooled_normal (timeout : Nat) (w : World) (cid : String)
    (hp : w.pool.getLast? = some cid) (hcp : w.cpOk = true)
    (hto : w.execTimesOut = false) :
    runBody timeout w =
      ⟨(if pyStripS w.execStdout = "" then pyStripS w.execStderr
        else pyStripS w.execStdout),
       (!(pyStripS w.execStderr == "") && (pyStripS w.execStdout == "")),
       pyStripS w.execStdout, pyStripS w.execStderr,
       (if w.statsRc = 0 then parse_docker_stats w.statsOut else (0, 0)).1,
       (if w.statsRc = 0 then parse_docker_stats w.statsOut else (0, 0)).2,
       [Action.dockerCp cid, Action.dockerExec cid, Action.dockerStats cid],
       w.pool.dropLast⟩ := by
  simp only [runBody, acquire, hp, hcp, hto]
  simp

/-- `runBody` on the cold-start path without timeout: zero usage is
reported and the (empty) pool is unchanged. -/
theorem runBody_cold_normal (timeout : Nat) (w : World)
    (hp : w.pool = []) (hto : w.execTimesOut = false) :
    runBody timeout w =
      ⟨(if pyStripS w.execStdout = "" then pyStripS w.execStderr
        else pyStripS w.execStdout),
       (!(pyStripS w.execStderr == "") && (pyStripS w.execStdout == "")),
       pyStripS w.execStdout, pyStripS w.execStderr, 0, 0,
       [Action.dockerRun], w.pool⟩ := by
  simp only [runBody, acquire, hp, hto]
  simp

/-- `runBody` on the pooled path when the deadline expires: the timeout
message is produced, the container is killed, and it is not returned to
the pool. -/
theorem runBody_pooled_timeout (timeout : Nat) (w : World) (cid : String)
    (hp : w.pool.getLast? = some cid) (hcp : w.cpOk = true)
    (hto : w.execTimesOut = true) :
    runBody timeout w =
      ⟨timeoutMsg timeout, true, "", timeoutMsg timeout, 0, 0,
       [Action.dockerCp cid, Action.dockerExec cid, Action.dockerKill cid],
       w.pool.dropLast⟩ := by
  simp only [runBody, acquire, hp, hcp, hto]
  simp

/-- `runBody` on the cold-start path when the deadline expires: the
timeout message is produced and no container is killed. -/
theorem runBody_cold_timeout (timeout : Nat) (w : World)
    (hp : w.pool = []) (hto : w.execTimesOut = true) :
    runBody timeout w =
      ⟨timeoutMsg timeout, true, "", timeoutMsg timeout, 0, 0,
       [Action.dockerRun], w.pool⟩ := by
  simp only [runBody, acquire, hp, hto]
  simp

/-- C1: if `run_function` completes normally (no timeout, no exception),
the returned output is the stripped stdout when that is non-empty and the
stripped stderr otherwise, and the error flag is set iff stderr is
non-empty while stdout is empty. -/
theorem run_function_normal_output_and_error_flag
    (code language : String) (timeout : Nat) (hasConn : Bool) (w : World)
    (hlang : language = "python" ∨ language = "node")
    (hens : (ensure_docker_images w.imgs).err = none)
    (hcp : w.pool ≠ [] → w.cpOk = true)
    (hto : w.execTimesOut = false) :
    (run_function code language timeout hasConn w).output =
      (if pyStripS w.execStdout = "" then pyStripS w.execStderr
       else pyStripS w.execStdout) ∧
    ((run_function code language timeout hasConn w).metrics.map
        Metrics.error) =
      some (decide (pyStripS w.execStderr ≠ "" ∧ pyStripS w.execStdout = "")) := by
  rw [run_function_unfold code language timeout hasConn w hens hlang]
  rcases hpool : w.pool.getLast? with _ | cid
  · have hp : w.pool = [] := List.getLast?_eq_none_iff.mp hpool
    rw [runBody_cold_normal timeout w hp hto]
    constructor
    · rfl
    · simp [Option.map, Bool.and_comm]
      by_cases h1 : pyStripS w.execStderr = "" <;>
        by_cases h2 : pyStripS w.execStdout = "" <;> simp [h1, h2]
  · have hcp' : w.cpOk = true := by
      apply hcp
      intro he
      rw [he] at hpool
      simp at hpool
    rw [runBody_pooled_normal timeout w cid hpool hcp' hto]
    constructor
    · rfl
    · simp [Option.map]
      by_cases h1 : pyStripS w.execStderr = "" <;>
        by_cases h2 : pyStripS w.execStdout = "" <;> simp [h1, h2]

/-- C1 witness: the normal-completion output/error-flag law at a concrete
pooled invocation whose code prints `" hi \n"`. -/
theorem run_function_normal_output_and_error_flag_witness :
    (run_function "x" "python" 5 true wPoolClean).output =
      (if pyStripS wPoolClean.execStdout = "" then pyStripS wPoolClean.execStderr
       else pyStripS wPoolClean.execStdout) ∧
    ((run_function "x" "python" 5 true wPoolClean).metrics.map
        Metrics.error) =
      some (decide (pyStripS wPoolClean.execStderr ≠ "" ∧
        pyStripS wPoolClean.execStdout = "")) :=
  run_function_normal_output_and_error_flag "x" "python" 5 true wPoolClean
    (Or.inl rfl) (by decide) (fun _ => rfl) rfl

/-- Every action `ensure_docker_images` performs is an image-provisioning
action (`docker image inspect` or `docker build`). -/
theorem ensure_trace_provision (st : ImageState) :
    ∀ a ∈ (ensure_docker_images st).trace, isProvision a = true := by
  intro a ha
  simp only [ensure_docker_images, langTriples, List.foldl, ensureStep] at ha
  split_ifs at ha <;> cases a <;> simp_all [isProvision]

/-- A provisioning action is not a `docker kill`. -/
theorem isKill_of_provision (a : Action) (h : isProvision a = true) :
    isKill a = false := by
  cases a <;> simp_all [isProvision, isKill]

/-- `acquire` only ever returns a member of the pool. -/
theorem acquire_mem (l : List String) (c : String)
    (h : (acquire l).1 = some c) : c ∈ l := by
  unfold acquire at h
  rcases hl : l.getLast? with _ | a <;> rw [hl] at h <;> simp at h
  subst h
  obtain ⟨hne, heq⟩ := List.mem_getLast?_eq_getLast (Option.mem_def.mpr hl)
  rw [heq]
  exact List.getLast_mem hne

/-- In a duplicate-free pool, the popped (last) element does not occur in
the remaining pool. -/
theorem getLast_not_mem_dropLast (l : List String) (a : String)
    (hnd : l.Nodup) (h : l.getLast? = some a) : a ∉ l.dropLast := by
  have hl : l.dropLast ++ [a] = l :=
    List.dropLast_append_getLast? a (Option.mem_def.mpr h)
  intro hmem
  rw [← hl] at hnd
  rcases List.nodup_append.mp hnd with ⟨-, -, hdisj⟩
  exact hdisj hmem (by simp)

/-- C2 counterexample: a cold-started invocation (empty pool) that exceeds
its deadline produces the timeout output and error flag, yet its trace
contains no `docker kill` — contrary to the claim, the deadline-exceeded
path does not forcibly terminate a cold-started environment. -/
theorem run_function_cold_timeout_no_kill_cex :
    (run_function "x" "python" 5 true wColdTimeout).output = timeoutMsg 5 ∧
    ((run_function "x" "python" 5 true wColdTimeout).metrics.map
        Metrics.error) = some true ∧
    ((run_function "x" "python" 5 true wColdTimeout).trace.filter isKill)
      = [] := by
  refine ⟨by decide, by decide, by decide⟩

/-- C2 (amended): on deadline exceeded the output is
`"Execution timed out after {timeout} seconds."` and the error flag is
true; the kills performed are exactly one `docker kill` of the pooled
container when the environment was pool-owned, and none when it was
cold-started. -/
theorem run_function_timeout_output_flag_kill
    (code language : String) (timeout : Nat) (hasConn : Bool) (w : World)
    (hlang : language = "python" ∨ language = "node")
    (hens : (ensure_docker_images w.imgs).err = none)
    (hcp : w.pool ≠ [] → w.cpOk = true)
    (hto : w.execTimesOut = true) :
    (run_function code language timeout hasConn w).output =
      timeoutMsg timeout ∧
    ((run_function code language timeout hasConn w).metrics.map
        Metrics.error) = some true ∧
    ((run_function code language timeout hasConn w).trace.filter isKill) =
      (w.pool.getLast?.map Action.dockerKill).toList := by
  have hprov : ∀ a ∈ (ensure_docker_images w.imgs).trace, isKill a = false :=
    fun a ha => isKill_of_provision a (ensure_trace_provision w.imgs a ha)
  have hnil : (ensure_docker_images w.imgs).trace.filter isKill = [] :=
    List.filter_eq_nil_iff.mpr (fun a ha => by simp [hprov a ha])
  rw [run_function_unfold code language timeout hasConn w hens hlang]
  rcases hpool : w.pool.getLast? with _ | cid
  · have hp : w.pool = [] := List.getLast?_eq_none_iff.mp hpool
    rw [runBody_cold_timeout timeout w hp hto]
    refine ⟨rfl, rfl, ?_⟩
    cases hasConn <;> simp [List.filter_append, hnil, isKill]
  · have hcp' : w.cpOk = true := by
      apply hcp
      intro he
      rw [he] at hpool
      simp at hpool
    rw [runBody_pooled_timeout timeout w cid hpool hcp' hto]
    refine ⟨rfl, rfl, ?_⟩
    cases hasConn <;> simp [List.filter_append, hnil, isKill]

/-- C2 witness: the amended timeout law at a concrete pooled invocation
that times out: the container `"c1"` is killed. -/
theorem run_function_timeout_output_flag_kill_witness :
    (run_function "x" "python" 7 true wPoolTimeout).output =
      timeoutMsg 7 ∧
    ((run_function "x" "python" 7 true wPoolTimeout).metrics.map
        Metrics.error) = some true ∧
    ((run_function "x" "python" 7 true wPoolTimeout).trace.filter isKill) =
      (wPoolTimeout.pool.getLast?.map Action.dockerKill).toList :=
  run_function_timeout_output_flag_kill "x" "python" 7 true wPoolTimeout
    (Or.inl rfl) (by decide) (fun _ => rfl) rfl

/-- C3 counterexample: a pooled invocation (pool `["c1"]`) that completes
cleanly (no error flag, no exception) leaves the warm pool empty — the
environment is not released back as Idle, and the immediately following
acquire does not return the same environment id. -/
theorem run_function_clean_not_released_cex :
    (run_function "x" "python" 5 true wPoolClean).err = none ∧
    ((run_function "x" "python" 5 true wPoolClean).metrics.map
        Metrics.error) = some false ∧
    (run_function "x" "python" 5 true wPoolClean).pool = [] ∧
    (acquire (run_function "x" "python" 5 true wPoolClean).pool).1 ≠
      some "c1" := by
  refine ⟨by decide, by decide, by decide, by decide⟩

/-- C3 (amended): a pool-owned environment is removed from the warm pool
at acquisition and never returned, even when the invocation completes
cleanly: afterwards the pool is the original pool minus its last element,
the used environment is not in it, and a following acquire cannot return
that environment. -/
theorem run_function_pooled_env_not_released
    (code language : String) (timeout : Nat) (hasConn : Bool) (w : World)
    (cid : String)
    (hlang : language = "python" ∨ language = "node")
    (hens : (ensure_docker_images w.imgs).err = none)
    (hnd : w.pool.Nodup)
    (hp : w.pool.getLast? = some cid)
    (hcp : w.cpOk = true) (hto : w.execTimesOut = false) :
    (run_function code language timeout hasConn w).pool =
      w.pool.dropLast ∧
    cid ∉ (run_function code language timeout hasConn w).pool ∧
    (acquire ((run_function code language timeout hasConn w).pool)).1 ≠
      some cid := by
  rw [run_function_unfold code language timeout hasConn w hens hlang,
    runBody_pooled_normal timeout w cid hp hcp hto]
  have hnm : cid ∉ w.pool.dropLast := getLast_not_mem_dropLast w.pool cid hnd hp
  exact ⟨rfl, hnm, fun hacq => hnm (acquire_mem _ _ hacq)⟩

/-- C3 witness: the amended non-release law at the concrete clean pooled
invocation with pool `["c1"]`. -/
theorem run_function_pooled_env_not_released_witness :
    (run_function "x" "python" 5 true wPoolClean).pool =
      wPoolClean.pool.dropLast ∧
    "c1" ∉ (run_function "x" "python" 5 true wPoolClean).pool ∧
    (acquire ((run_function "x" "python" 5 true wPoolClean).pool)).1 ≠
      some "c1" :=
  run_function_pooled_env_not_released "x" "python" 5 true wPoolClean "c1"
    (Or.inl rfl) (by decide) (by decide) (by decide) rfl rfl

/-- C4 counterexample: with no images built yet, invoking `run_function`
with language `"ruby"` builds the python execution image (a container
infrastructure side effect) before the unsupported-language rejection —
the rejection does not precede every container operation. -/
theorem run_function_unsupported_builds_first_cex :
    (run_function "x" "ruby" 5 true wNoImages).err =
      some (RunError.unsupportedLanguage "ruby") ∧
    Action.imageBuild "code-runner-python" ∈
      (run_function "x" "ruby" 5 true wNoImages).trace := by
  refine ⟨by decide, by decide⟩

/-- C4 (amended): an unsupported language is rejected with `ValueError`
directly after image provisioning: no source file is written, no
container is acquired, copied into, started, executed or killed, no
metrics row is inserted (the whole trace is provisioning actions) and the
warm pool is untouched. -/
theorem run_function_unsupported_rejected_no_container_work
    (code language : String) (timeout : Nat) (hasConn : Bool) (w : World)
    (hlang : ¬(language = "python" ∨ language = "node"))
    (hens : (ensure_docker_images w.imgs).err = none) :
    (run_function code language timeout hasConn w).err =
      some (RunError.unsupportedLanguage language) ∧
    (run_function code language timeout hasConn w).pool = w.pool ∧
    ((run_function code language timeout hasConn w).trace.all isProvision)
      = true := by
  simp only [run_function]
  rw [hens, if_neg hlang]
  refine ⟨rfl, rfl, ?_⟩
  rw [List.all_eq_true]
  exact ensure_trace_provision w.imgs

/-- C4 witness: the amended rejection law at language `"ruby"` against a
state with both images already present and a warm container. -/
theorem run_function_unsupported_rejected_no_container_work_witness :
    (run_function "x" "ruby" 5 true wPoolClean).err =
      some (RunError.unsupportedLanguage "ruby") ∧
    (run_function "x" "ruby" 5 true wPoolClean).pool = wPoolClean.pool ∧
    ((run_function "x" "ruby" 5 true wPoolClean).trace.all isProvision)
      = true :=
  run_function_unsupported_rejected_no_container_work "x" "ruby" 5 true
    wPoolClean (by decide) (by decide)

/-- C5: for a supported language (with image provisioning succeeding, so
the transient source file is actually written), the `finally` block
deletes `/tmp/{uuid}.{ext}` on every exit path — clean completion,
copy failure, and timeout alike: the delete is always in the trace. -/
theorem run_function_always_deletes_temp_file
    (code language : String) (timeout : Nat) (hasConn : Bool) (w : World)
    (hlang : language = "python" ∨ language = "node")
    (hens : (ensure_docker_images w.imgs).err = none) :
    Action.deleteFile ("/tmp/" ++ w.tempId ++
        (if language = "python" then ".py" else ".js")) ∈
      (run_function code language timeout hasConn w).trace := by
  rw [run_function_unfold code language timeout hasConn w hens hlang]
  cases hasConn <;> simp

/-- C5 witness: the transient file is deleted on the timeout path of a
concrete cold-started invocation. -/
theorem run_function_always_deletes_temp_file_witness :
    Action.deleteFile ("/tmp/" ++ wColdTimeout.tempId ++
        (if "python" = "python" then ".py" else ".js")) ∈
      (run_function "x" "python" 5 true wColdTimeout).trace :=
  run_function_always_deletes_temp_file "x" "python" 5 true wColdTimeout
    (Or.inl rfl) (by decide)

/-- On the pooled path the warm pool left behind is always the original
pool minus its last element, whatever the outcome. -/
theorem runBody_pool_pooled (timeout : Nat) (w : World) (cid : String)
    (hp : w.pool.getLast? = some cid) :
    (runBody timeout w).pool = w.pool.dropLast := by
  simp only [runBody, acquire, hp]
  split_ifs <;> rfl

/-- C7: acquisition removes the environment from the warm pool: in a
duplicate-free pool the acquired container is no longer in the remaining
pool, a subsequent acquire on the remaining pool cannot return it again,
and an invocation that acquired it leaves exactly the remaining pool
behind (the environment is in use, handed to no one else). -/
theorem acquire_removes_and_never_reissues
    (code language : String) (timeout : Nat) (hasConn : Bool) (w : World)
    (c : String) (rest : List String)
    (hlang : language = "python" ∨ language = "node")
    (hens : (ensure_docker_images w.imgs).err = none)
    (hnd : w.pool.Nodup) (h : acquire w.pool = (some c, rest)) :
    c ∉ rest ∧ (acquire rest).1 ≠ some c ∧
    (run_function code language timeout hasConn w).pool = rest := by
  have h1 : w.pool.getLast? = some c ∧ rest = w.pool.dropLast := by
    unfold acquire at h
    rcases hl : w.pool.getLast? with _ | a <;> rw [hl] at h <;>
      simp_all
  obtain ⟨hgl, hrest⟩ := h1
  subst hrest
  have hnm := getLast_not_mem_dropLast w.pool c hnd hgl
  refine ⟨hnm, fun h2 => hnm (acquire_mem _ _ h2), ?_⟩
  rw [run_function_unfold code language timeout hasConn w hens hlang]
  exact runBody_pool_pooled timeout w c hgl

/-- C7 witness: acquiring from the concrete pool `["c1"]` hands out
`"c1"`, which is gone from the remaining pool and cannot be acquired
again until released. -/
theorem acquire_removes_and_never_reissues_witness :
    "c1" ∉ ([] : List String) ∧ (acquire []).1 ≠ some "c1" ∧
    (run_function "x" "python" 5 true wPoolClean).pool = [] :=
  acquire_removes_and_never_reissues "x" "python" 5 true wPoolClean "c1" []
    (Or.inl rfl) (by decide) (by decide) (by decide)

/-- The `try` body never reads the database-insert outcome. -/
theorem runBody_insert_irrel (timeout : Nat) (w : World) (b b' : Bool) :
    runBody timeout ⟨w.imgs, w.pool, w.tempId, w.cpOk, w.cpErr, w.execTimesOut,
      w.execStdout, w.execStderr, w.statsRc, w.statsOut, b⟩ =
    runBody timeout ⟨w.imgs, w.pool, w.tempId, w.cpOk, w.cpErr, w.execTimesOut,
      w.execStdout, w.execStderr, w.statsRc, w.statsOut, b'⟩ := rfl

/-- C9: a metrics-persistence failure is swallowed: with the database
insert failing, `run_function` raises the same exception (if any) and
returns the same output, metrics and pool as with the insert succeeding;
only the recorded insert outcome in the trace differs. -/
theorem run_function_insert_failure_swallowed
    (code language : String) (timeout : Nat) (hasConn : Bool) (w : World) :
    (run_function code language timeout hasConn
        ⟨w.imgs, w.pool, w.tempId, w.cpOk, w.cpErr, w.execTimesOut,
         w.execStdout, w.execStderr, w.statsRc, w.statsOut, false⟩).err =
      (run_function code language timeout hasConn
        ⟨w.imgs, w.pool, w.tempId, w.cpOk, w.cpErr, w.execTimesOut,
         w.execStdout, w.execStderr, w.statsRc, w.statsOut, true⟩).err ∧
    (run_function code language timeout hasConn
        ⟨w.imgs, w.pool, w.tempId, w.cpOk, w.cpErr, w.execTimesOut,
         w.execStdout, w.execStderr, w.statsRc, w.statsOut, false⟩).output =
      (run_function code language timeout hasConn
        ⟨w.imgs, w.pool, w.tempId, w.cpOk, w.cpErr, w.execTimesOut,
         w.execStdout, w.execStderr, w.statsRc, w.statsOut, true⟩).output ∧
    (run_function code language timeout hasConn
        ⟨w.imgs, w.pool, w.tempId, w.cpOk, w.cpErr, w.execTimesOut,
         w.execStdout, w.execStderr, w.statsRc, w.statsOut, false⟩).metrics =
      (run_function code language timeout hasConn
        ⟨w.imgs, w.pool, w.tempId, w.cpOk, w.cpErr, w.execTimesOut,
         w.execStdout, w.execStderr, w.statsRc, w.statsOut, true⟩).metrics ∧
    (run_function code language timeout hasConn
        ⟨w.imgs, w.pool, w.tempId, w.cpOk, w.cpErr, w.execTimesOut,
         w.execStdout, w.execStderr, w.statsRc, w.statsOut, false⟩).pool =
      (run_function code language timeout hasConn
        ⟨w.imgs, w.pool, w.tempId, w.cpOk, w.cpErr, w.execTimesOut,
         w.execStdout, w.execStderr, w.statsRc, w.statsOut, true⟩).pool := by
  by_cases hl : language = "python" ∨ language = "node" <;>
    rcases hens : (ensure_docker_images w.imgs).err with _ | er <;>
    simp [run_function, hens, hl, runBody_insert_irrel timeout w false true]

/-- C6: image provisioning is idempotent: when both execution images
already exist, `ensure_docker_images` performs no build; a single call
performs at most one build per language; and a second call made from the
state a successful call leaves behind performs no build at all — so two
consecutive calls perform at most one build per language. -/
theorem ensure_docker_images_idempotent (st : ImageState)
    (h : (ensure_docker_images st).err = none) :
    (("code-runner-python" ∈ st.images ∧ "code-runner-node" ∈ st.images) →
      (ensure_docker_images st).trace.filter isBuild = []) ∧
    ((ensure_docker_images
        ⟨(ensure_docker_images st).images, st.dockerfiles,
         st.buildFails⟩).trace.filter isBuild) = [] ∧
    buildCount "code-runner-python" (ensure_docker_images st).trace ≤ 1 ∧
    buildCount "code-runner-node" (ensure_docker_images st).trace ≤ 1 := by
  by_cases d1 : "Dockerfile.python" ∈ st.dockerfiles <;>
  by_cases i1 : "code-runner-python" ∈ st.images <;>
  by_cases b1 : "code-runner-python" ∈ st.buildFails <;>
  by_cases d2 : "Dockerfile.node" ∈ st.dockerfiles <;>
  by_cases i2 : "code-runner-node" ∈ st.images <;>
  by_cases b2 : "code-runner-node" ∈ st.buildFails <;>
    simp_all +decide [ensure_docker_images, langTriples, ensureStep,
      buildCount, isBuild]

/-- C6 witness: with both images present and both Dockerfiles on disk, a
call performs no build and a repeated call performs none either. -/
theorem ensure_docker_images_idempotent_witness :
    (("code-runner-python" ∈ imgsReady.images ∧
        "code-runner-node" ∈ imgsReady.images) →
      (ensure_docker_images imgsReady).trace.filter isBuild = []) ∧
    ((ensure_docker_images
        ⟨(ensure_docker_images imgsReady).images, imgsReady.dockerfiles,
         imgsReady.buildFails⟩).trace.filter isBuild) = [] ∧
    buildCount "code-runner-python" (ensure_docker_images imgsReady).trace
      ≤ 1 ∧
    buildCount "code-runner-node" (ensure_docker_images imgsReady).trace
      ≤ 1 :=
  ensure_docker_images_idempotent imgsReady (by decide)

/-- C8 counterexample: a pooled invocation that completes normally but
whose `docker stats` call exits non-zero reports `(0, 0)` usage even
though its captured sample line parses to `(5, 3)` — the reported usage
is not the point-in-time sample. -/
theorem run_function_pooled_stats_failure_cex :
    ((run_function "x" "python" 5 true wStatsFail).metrics.map
        (fun m => (m.memory_usage, m.cpu_usage))) =
      some ((0 : ℚ), (0 : ℚ)) ∧
    parse_docker_stats wStatsFail.statsOut = ((5 : ℚ), (3 : ℚ)) ∧
    ((5 : ℚ), (3 : ℚ)) ≠ ((0 : ℚ), (0 : ℚ)) := by
  refine ⟨by decide, ?_, by norm_num⟩
  show parse_docker_stats "5.0MiB / 256MiB,3.0%" = ((5 : ℚ), (3 : ℚ))
  simp +decide [parse_docker_stats, stripL, splitOnCharL, splitSepL,
    splitSepGo, stripLead, removePercent, pyFloatCore, digitVals,
    natOfDigits]

/-- C8 (amended): on normal completion the usage metrics follow the
source's policy: a pooled environment with a successful stats call
reports the parsed point-in-time sample; a pooled environment whose
stats call failed reports zero; a cold-started environment reports
zero. -/
theorem run_function_usage_sample_policy
    (code language : String) (timeout : Nat) (hasConn : Bool) (w : World)
    (hlang : language = "python" ∨ language = "node")
    (hens : (ensure_docker_images w.imgs).err = none)
    (hcp : w.pool ≠ [] → w.cpOk = true)
    (hto : w.execTimesOut = false) :
    ((run_function code language timeout hasConn w).metrics.map
        (fun m => (m.memory_usage, m.cpu_usage))) =
      some (if w.pool = [] then ((0 : ℚ), (0 : ℚ))
            else if w.statsRc = 0 then parse_docker_stats w.statsOut
            else ((0 : ℚ), (0 : ℚ))) := by
  rw [run_function_unfold code language timeout hasConn w hens hlang]
  rcases hpool : w.pool.getLast? with _ | cid
  · have hp : w.pool = [] := List.getLast?_eq_none_iff.mp hpool
    rw [runBody_cold_normal timeout w hp hto]
    simp [hp]
  · have hne : w.pool ≠ [] := by
      intro he
      rw [he] at hpool
      simp at hpool
    have hcp' : w.cpOk = true := hcp hne
    rw [runBody_pooled_normal timeout w cid hpool hcp' hto]
    simp [hne]

/-- C8 witness: the amended usage policy at a concrete pooled invocation
whose stats call failed. -/
theorem run_function_usage_sample_policy_witness :
    ((run_function "x" "python" 5 true wStatsFail).metrics.map
        (fun m => (m.memory_usage, m.cpu_usage))) =
      some (if wStatsFail.pool = [] then ((0 : ℚ), (0 : ℚ))
            else if wStatsFail.statsRc = 0 then
              parse_docker_stats wStatsFail.statsOut
            else ((0 : ℚ), (0 : ℚ))) :=
  run_function_usage_sample_policy "x" "python" 5 true wStatsFail
    (Or.inl rfl) (by decide) (fun _ => rfl) rfl

/-- C10 counterexample: `"5,3"` is not a `"<mem>MiB ...,<cpu>%"` stats
line, yet `parse_docker_stats` returns `(5, 3)`, not `(0, 0)` — the
`MiB`/`%` markers are not required by the parser. -/
theorem parse_docker_stats_nonformat_nonzero_cex :
    statsLineFormat "5,3" = false ∧
    parse_docker_stats "5,3" = ((5 : ℚ), (3 : ℚ)) ∧
    ((5 : ℚ), (3 : ℚ)) ≠ ((0 : ℚ), (0 : ℚ)) := by
  refine ⟨by decide, ?_, by norm_num⟩
  simp +decide [parse_docker_stats, stripL, splitOnCharL, splitSepL,
    splitSepGo, stripLead, removePercent, pyFloatCore, digitVals,
    natOfDigits]

/-- C10 (amended): `parse_docker_stats` is total (every failure of its
tolerant parse is caught), and it returns `(0, 0)` exactly on parse
failure: whenever the comma split does not yield two fields or either
field fails to convert as a float, the result is `(0, 0)`; the `MiB` and
`%` markers are not required, so strings outside the claimed stats-line
format can still yield nonzero values. -/
theorem parse_docker_stats_default_on_parse_failure (s : String)
    (h : statsComponentsParse s = false) :
    parse_docker_stats s = ((0 : ℚ), (0 : ℚ)) := by
  unfold statsComponentsParse at h
  unfold parse_docker_stats
  rcases hsplit : splitOnCharL ',' (stripL s.data) with _ | ⟨m, tl⟩
  · rfl
  · rcases tl with _ | ⟨c, tl2⟩
    · rfl
    · rcases tl2 with _ | _
      · rw [hsplit] at h
        rcases hm : pyFloatCore (stripL ((splitSepL "MiB".data m).headD []))
            with _ | qm <;>
          rcases hc : pyFloatCore (stripL (removePercent c)) with _ | qc <;>
          simp_all
      · rfl

/-- C10 witness: the parse-failure default at the concrete non-stats
input `"garbage"`. -/
theorem parse_docker_stats_default_on_parse_failure_witness :
    parse_docker_stats "garbage" = ((0 : ℚ), (0 : ℚ)) :=
  parse_docker_stats_default_on_parse_failure "garbage" (by decide)

end FaaS
